import Mathlib

/-!
# Verification of the Upload2Present batch compositor (`src/app.py`)

This file is a shallow embedding of the compositor pipeline of `app.py`:
the filename classifier (`is_image`, `is_pdf`), the geometry fitter
(`fit_image_on_slide`), the deck builder (`build_pptx_from_records`) and the
archive builder (`build_zip_from_records`), together with theorems settling
the specification's claims about them.

Conventions of the embedding:
* File payloads (`bytes`) are `List Nat` (one `Nat` per byte).
* Library codecs (PIL image decoding, PyMuPDF page rasterization) are passed
  in as explicit function parameters returning `Option` results, mirroring
  the spec's `ImageCodec` / `DocumentRasterizer` capability interfaces; a
  `none` result models a decode failure (`UnidentifiedImageError` or a
  rasterization exception at document open).
* EMU lengths (`pptx.util.Inches`: 914400 EMU per inch) are `Int`; the
  intermediate floating-point `scale` of `fit_image_on_slide` is modelled by
  exact rational arithmetic, and Python's `int()` (truncation toward zero)
  by `pyTrunc`.
* A slide is modelled by the data the builder puts on it (title text,
  fitted picture geometry, footer, body lines), a zip archive by its list
  of entries in writing order.
-/

/-- One uploaded file record, as built at ingestion in `app.py`
(the dict `{name, mime, bytes, size, title, order, upload_time, is_camera}`). -/
structure Rec where
  name : String
  bytes : List Nat
  mime : String
  size : Nat
  title : String
  order : Int
  upload_time : String
  is_camera : Bool
deriving DecidableEq

/-- One entry of the output ZIP archive.  `zipfile.ZipFile.writestr`, when
given a plain name, stamps the entry with the current local time
(`ZipInfo(filename=..., date_time=time.localtime(time.time())[:6])`), so an
entry carries the wall-clock build time `dosTime` besides path and data. -/
structure ZipEntry where
  path : String
  data : List Nat
  dosTime : Nat
deriving DecidableEq

/-- `build_zip_from_records` (`app.py` lines 366-375): writes, for each
record in the given list order (no sorting), the entry
`f"{batch_id}/{rec['name']}"` with the record's unmodified bytes.  `now` is
the wall-clock time at which the build runs (stamped on every entry by
`writestr`, see `ZipEntry`). -/
def build_zip_from_records (records : List Rec) (batch_id : String) (now : Nat) :
    List ZipEntry :=
  records.map (fun rec =>
    { path := batch_id ++ "/" ++ rec.name, data := rec.bytes, dosTime := now })

/-- The lowercased text after the last dot of `filename`, or `""` when the
filename contains no dot: `(filename.rsplit(".", 1)[-1] if "." in filename
else "").lower()` from `is_image` / `is_pdf` (`app.py` lines 36-42). -/
def extOf (filename : String) : String :=
  if filename.data.contains '.' then
    String.mk (((filename.data.reverse.takeWhile (fun c => c != '.')).reverse).map
      Char.toLower)
  else ""

/-- The image-extension set of `is_image` (`app.py` line 38). -/
def imageExts : List String :=
  ["png", "jpg", "jpeg", "gif", "webp", "bmp", "tiff", "mpo", "heic", "heif", "svg"]

/-- `is_image(filename)` (`app.py` lines 36-38): extension membership test. -/
def is_image (filename : String) : Bool :=
  decide (extOf filename ∈ imageExts)

/-- `is_pdf(filename)` (`app.py` lines 40-42). -/
def is_pdf (filename : String) : Bool :=
  decide (extOf filename = "pdf")

/-- The three record classes of the spec's Fallback Classifier. -/
inductive FileClass where
  | Image
  | PaginatedDocument
  | Other
deriving DecidableEq

/-- The classifier: the branch structure of the per-record loop of
`build_pptx_from_records` (`app.py` lines 250, 285, 335), with document
rasterization support available. -/
def classify (filename : String) : FileClass :=
  if is_image filename then FileClass.Image
  else if is_pdf filename then FileClass.PaginatedDocument
  else FileClass.Other

/-- Python's `int()` on a (nonnegative or negative) rational: truncation
toward zero. -/
def pyTrunc (q : ℚ) : ℤ :=
  if q < 0 then -(⌊-q⌋) else ⌊q⌋

/-- `prs.slide_width = Inches(8.5)` = 8.5 * 914400 EMU. -/
def slideWidthEmu : ℤ := 7772400

/-- `prs.slide_height = Inches(11.0)` = 11 * 914400 EMU. -/
def slideHeightEmu : ℤ := 10058400

/-- `max_w = prs.slide_width - Inches(1.0)` = 7772400 - 914400 EMU
(7.5 inches), the usable width of `fit_image_on_slide`. -/
def usableWidth : ℤ := 6858000

/-- `max_h` of `fit_image_on_slide`: `prs.slide_height - Inches(2.5)`
= 7772400 EMU (8.5 in) with a title, `prs.slide_height - Inches(1.0)`
= 9144000 EMU (10 in) without. -/
def usableHeight (has_title : Bool) : ℤ :=
  if has_title then 7772400 else 9144000

/-- `top_offset` of `fit_image_on_slide`: `Inches(1.5)` = 1371600 EMU with a
title, `Inches(0.5)` = 457200 EMU without. -/
def topOffset (has_title : Bool) : ℤ :=
  if has_title then 1371600 else 457200

/-- `scale = min(float(max_w) / iw, float(max_h) / ih)` of
`fit_image_on_slide` (`app.py` line 84), in exact rational arithmetic. -/
def fitScale (iw ih : ℤ) (has_title : Bool) : ℚ :=
  min ((usableWidth : ℚ) / (iw : ℚ)) ((usableHeight has_title : ℚ) / (ih : ℚ))

/-- `fit_image_on_slide` (`app.py` lines 71-89): returns
`(left, top, disp_w, disp_h)` in EMU for a content rectangle of `iw × ih`
pixels.  `disp_w = int(iw * scale)`, `disp_h = int(ih * scale)`,
`left = int((prs.slide_width - disp_w) / 2)`,
`top = int(top_offset + (max_h - disp_h) / 2)`. -/
def fit_image_on_slide (iw ih : ℤ) (has_title : Bool) : ℤ × ℤ × ℤ × ℤ :=
  let disp_w : ℤ := pyTrunc ((iw : ℚ) * fitScale iw ih has_title)
  let disp_h : ℤ := pyTrunc ((ih : ℚ) * fitScale iw ih has_title)
  let left : ℤ := pyTrunc (((slideWidthEmu : ℚ) - (disp_w : ℚ)) / 2)
  let top : ℤ :=
    pyTrunc ((topOffset has_title : ℚ) + ((usableHeight has_title : ℚ) - (disp_h : ℚ)) / 2)
  (left, top, disp_w, disp_h)

/-- Modelled from the spec's words (§4.2 / claim C4): output dimensions are
`round(contentWidth*scale)` and `round(contentHeight*scale)` with
`scale = min(usableWidth/contentWidth, usableHeight/contentHeight)`, using
rounding to the nearest integer.  To be compared with the dimensions
actually computed by `fit_image_on_slide`, which truncates. -/
def fit_spec_round (iw ih : ℤ) (has_title : Bool) : ℤ × ℤ :=
  (round ((iw : ℚ) * fitScale iw ih has_title),
   round ((ih : ℚ) * fitScale iw ih has_title))

/-- The sort key relation of `sorted(records, key=lambda x: x.get("order", 0))`
(`app.py` line 152): compare records by their `order` field. -/
def recLE (a b : Rec) : Prop := a.order ≤ b.order

instance : DecidableRel recLE :=
  fun a b => inferInstanceAs (Decidable (a.order ≤ b.order))

instance : IsTotal Rec recLE := ⟨fun a b => le_total a.order b.order⟩

instance : IsTrans Rec recLE := ⟨fun _ _ _ h1 h2 => le_trans h1 h2⟩

/-- `sorted(records, key=lambda x: x.get("order", 0))` (`app.py` line 152).
Python's `sorted` is a stable sort by the key; `List.insertionSort` with the
key order `recLE` is stable in the same sense (ties keep their input order),
so it computes the same list. -/
def sortRecordsByOrder (records : List Rec) : List Rec :=
  List.insertionSort recLE records

/-- `add_footer_to_slide` (`app.py` lines 113-125) adds the footer text
`f"Batch: {batch_id}"` only when `batch_id` is nonempty (`if batch_id:`). -/
def footerOf (batch_id : String) : Option String :=
  if batch_id = "" then none else some ("Batch: " ++ batch_id)

/-- One slide of the generated deck, modelled by the content the builder
places on it. -/
inductive Slide where
  /-- The leading title slide (`app.py` lines 155-243): presentation title
  plus the subtitle-frame body lines. -/
  | titleSlide (title : String) (body : List String)
  /-- A per-image slide (`app.py` lines 250-284): optional title textbox,
  the fitted picture geometry `(left, top, width, height)` when the image
  decoded (`none` when decoding failed and no picture was added), footer. -/
  | imageSlide (title : Option String) (pic : Option (ℤ × ℤ × ℤ × ℤ))
      (footer : Option String)
  /-- A per-PDF-page slide (`app.py` lines 289-329). -/
  | pdfPageSlide (title : Option String) (pic : ℤ × ℤ × ℤ × ℤ)
      (footer : Option String)
  /-- The trailing "Attached Files" summary slide (`app.py` lines 338-359),
  listing the `others` records' filenames. -/
  | attachedSlide (names : List String) (footer : Option String)
deriving DecidableEq

/-- Whether a slide is a rasterized document page. -/
def Slide.isPdfPage : Slide → Bool
  | Slide.pdfPageSlide _ _ _ => true
  | _ => false

/-- One file line of the title slide's file list (`app.py` lines 213-229):
`f"• {custom_title} - {name}{camera}"` when a nonempty edited title differs
from the filename, else `f"• {name}{camera}"`. -/
def fileLine (rec : Rec) : String :=
  let camera : String := if rec.is_camera then " (Camera)" else ""
  if rec.title ≠ "" ∧ rec.title ≠ rec.name then
    "• " ++ rec.title ++ " - " ++ rec.name ++ camera
  else
    "• " ++ rec.name ++ camera

/-- The body lines of the title slide's subtitle frame (`app.py` lines
183-243), built from the *unsorted* `records` list.  `today` is the
formatted `datetime.now()` date embedded on line 192. -/
def titleSlideLines (records : List Rec) (batch_id today : String) : List String :=
  ["Generated by U2P - Upload to Present",
   "Batch ID: " ++ batch_id ++ " • " ++ today,
   "Total Files: " ++ toString records.length] ++
  (if records.length ≤ 8 then
    ["Files Included:"] ++ (records.take 6).map fileLine ++
      (if records.length > 6 then
        ["... and " ++ toString (records.length - 6) ++ " more files"]
      else [])
  else
    ["Files Included: " ++ toString records.length ++ " documents"])

/-- The title of a rasterized page's slide (`app.py` lines 303-307): the
record title, suffixed with `f" (Page {page_num + 1})"` when the document
has more than one page. -/
def pageTitle (base : String) (pageCount pageIdx : Nat) : String :=
  if pageCount > 1 then base ++ " (Page " ++ toString (pageIdx + 1) ++ ")"
  else base

/-- The slides and fallback (`others`) contribution of one record in the
per-record loop of `build_pptx_from_records` (`app.py` lines 245-336).

* An image-classified record gets a slide *before* decoding is attempted
  (line 252); on decode failure the slide stays empty and the record is
  appended to `others` (lines 277-281).
* A PDF record (when `pdf_support` holds) yields one slide per rasterized
  page; a rasterization failure (modelled at document open) yields no slide
  and appends the record to `others` (lines 332-334).
* Everything else is appended to `others` (lines 335-336). -/
def processRecord (decodeImage : List Nat → Option (ℤ × ℤ))
    (decodePdf : List Nat → Option (List (ℤ × ℤ)))
    (pdf_support show_titles : Bool) (batch_id : String) (rec : Rec) :
    List Slide × List Rec :=
  if is_image rec.name then
    match decodeImage rec.bytes with
    | some (iw, ih) =>
        ([Slide.imageSlide (if show_titles then some rec.title else none)
            (some (fit_image_on_slide iw ih show_titles)) (footerOf batch_id)], [])
    | none =>
        ([Slide.imageSlide (if show_titles then some rec.title else none)
            none (footerOf batch_id)], [rec])
  else if is_pdf rec.name && pdf_support then
    match decodePdf rec.bytes with
    | some pages =>
        (pages.enum.map (fun p =>
          Slide.pdfPageSlide
            (if show_titles then some (pageTitle rec.title pages.length p.1) else none)
            (fit_image_on_slide p.2.1 p.2.2 show_titles) (footerOf batch_id)), [])
    | none => ([], [rec])
  else ([], [rec])

/-- The whole per-record loop: concatenates each record's slides and
fallback contributions in list order. -/
def processRecords (decodeImage : List Nat → Option (ℤ × ℤ))
    (decodePdf : List Nat → Option (List (ℤ × ℤ)))
    (pdf_support show_titles : Bool) (batch_id : String) :
    List Rec → List Slide × List Rec
  | [] => ([], [])
  | rec :: rest =>
      let head := processRecord decodeImage decodePdf pdf_support show_titles batch_id rec
      let tail := processRecords decodeImage decodePdf pdf_support show_titles batch_id rest
      (head.1 ++ tail.1, head.2 ++ tail.2)

/-- `build_pptx_from_records` (`app.py` lines 127-364), as the list of
slides of the produced deck:

1. when `presentation_title` is nonempty, the title slide (whose body lines
   come from the *unsorted* `records` list);
2. the per-record slides, for records sorted by `order` (stable);
3. when any record fell through to `others`, the "Attached Files" slide
   listing those records' names in processing order.

`pdf_support` is the module-level `PDF_SUPPORT` flag (`app.py` lines
19-23); `decodeImage` / `decodePdf` are the library codecs. -/
def build_pptx_from_records (decodeImage : List Nat → Option (ℤ × ℤ))
    (decodePdf : List Nat → Option (List (ℤ × ℤ)))
    (pdf_support : Bool) (records : List Rec) (show_titles : Bool)
    (batch_id presentation_title today : String) : List Slide :=
  let sorted := sortRecordsByOrder records
  let ps := processRecords decodeImage decodePdf pdf_support show_titles batch_id sorted
  (if presentation_title = "" then []
   else [Slide.titleSlide presentation_title (titleSlideLines records batch_id today)]) ++
  ps.1 ++
  (if ps.2 = [] then []
   else [Slide.attachedSlide (ps.2.map Rec.name) (footerOf batch_id)])

/-- A plain record (no edited title, not a camera shot) for concrete
batches. -/
def mkRec (name : String) (order : Int) : Rec :=
  { name := name, bytes := [], mime := "", size := 0, title := "", order := order,
    upload_time := "", is_camera := false }

/-- A record with `order = 2` inserted before one with `order = 1`. -/
def recA : Rec := mkRec "a.txt" 2

/-- A record with `order = 1` inserted after `recA`. -/
def recB : Rec := mkRec "b.txt" 1

/-- A concrete batch of ten records. -/
def tenRecs : List Rec :=
  [mkRec "f1" 1, mkRec "f2" 2, mkRec "f3" 3, mkRec "f4" 4, mkRec "f5" 5,
   mkRec "f6" 6, mkRec "f7" 7, mkRec "f8" 8, mkRec "f9" 9, mkRec "f10" 10]

/-- A concrete batch of eight records. -/
def eightRecs : List Rec := tenRecs.take 8

/-- An image-named record whose bytes will fail to decode. -/
def badPngRecord : Rec := mkRec "x.png" 0

/-- A PDF-named record. -/
def pdfRecord : Rec := mkRec "d.pdf" 0

/-- An image codec that fails on every payload. -/
def noImageDecode : List Nat → Option (ℤ × ℤ) := fun _ => none

/-- A rasterizer that fails on every payload. -/
def noPdfDecode : List Nat → Option (List (ℤ × ℤ)) := fun _ => none

/-- C2: for every record in the batch, the archive produced by
`build_zip_from_records` contains an entry whose path is exactly
`<batchId>/<name>` and whose (losslessly compressed, here stored raw) bytes
equal the record's original bytes byte-for-byte; the builder never
transforms the record's bytes. -/
theorem zip_entry_roundtrip (records : List Rec) (batch_id : String) (now : Nat)
    (r : Rec) (hr : r ∈ records) :
    ∃ e ∈ build_zip_from_records records batch_id now,
      e.path = batch_id ++ "/" ++ r.name ∧ e.data = r.bytes :=
  ⟨_, List.mem_map_of_mem _ hr, rfl, rfl⟩

/-- Witness for `zip_entry_roundtrip` at a concrete one-record batch. -/
theorem zip_entry_roundtrip_witness :
    ∃ e ∈ build_zip_from_records [mkRec "a.txt" 0] "B" 0,
      e.path = "B" ++ "/" ++ (mkRec "a.txt" 0).name ∧ e.data = (mkRec "a.txt" 0).bytes :=
  zip_entry_roundtrip [mkRec "a.txt" 0] "B" 0 (mkRec "a.txt" 0)
    (List.mem_singleton.mpr rfl)

/-- C10: `build_zip_from_records` writes exactly one entry per record, with
path `<batchId>/<name>` and the record's bytes, in the given list order;
records sharing a `name` yield multiple entries with the identical path
(none dropped, merged or renamed), as the count of entries at any path
equals the count of records mapping to it. -/
theorem zip_one_entry_per_record (records : List Rec) (batch_id : String) (now : Nat) :
    (build_zip_from_records records batch_id now).length = records.length ∧
    (build_zip_from_records records batch_id now).map (fun e => (e.path, e.data)) =
      records.map (fun r => (batch_id ++ "/" ++ r.name, r.bytes)) ∧
    ∀ p : String,
      (build_zip_from_records records batch_id now).countP (fun e => e.path == p) =
        records.countP (fun r => (batch_id ++ "/" ++ r.name) == p) := by
  refine ⟨?_, ?_, fun p => ?_⟩
  · simp [build_zip_from_records]
  · simp [build_zip_from_records, Function.comp]
  · rw [build_zip_from_records, List.countP_map]
    rfl

/-- C8 counterexample: the same one-record batch archived at two different
wall-clock times yields different archives (the per-entry modification
timestamps stamped by `zipfile.writestr` differ), refuting byte-identity
"regardless of the wall-clock time". -/
theorem zip_not_time_independent :
    build_zip_from_records [mkRec "a.txt" 0] "B" 0 ≠
      build_zip_from_records [mkRec "a.txt" 0] "B" 1 := by
  decide

/-- C8 amended: rebuilding the archive from an unchanged batch reproduces
every entry's path and bytes exactly, whatever the two build times; the
output is byte-identical exactly when the embedded per-entry modification
times coincide (the build is a pure function of records, batch id and
clock). -/
theorem zip_rebuild_same_content (records : List Rec) (batch_id : String)
    (t1 t2 : Nat) :
    (build_zip_from_records records batch_id t1).map (fun e => (e.path, e.data)) =
      (build_zip_from_records records batch_id t2).map (fun e => (e.path, e.data)) := by
  simp [build_zip_from_records, Function.comp]

/-- C5: the classifier returns `Image` iff the lowercased text after the
last dot is in the image-extension set, `PaginatedDocument` iff it is
`"pdf"`, and `Other` in every remaining case, including a filename with no
dot; it inspects only the filename (its type says nothing else is read). -/
theorem classify_by_extension (fn : String) :
    (classify fn = FileClass.Image ↔ extOf fn ∈ imageExts) ∧
    (classify fn = FileClass.PaginatedDocument ↔ extOf fn = "pdf") ∧
    (classify fn = FileClass.Other ↔ (extOf fn ∉ imageExts ∧ extOf fn ≠ "pdf")) ∧
    (fn.data.contains '.' = false → classify fn = FileClass.Other) := by
  have hpdf : ("pdf" : String) ∉ imageExts := by decide
  have hempty : ("" : String) ∉ imageExts := by decide
  have hext : fn.data.contains '.' = false → extOf fn = "" := by
    intro hd
    unfold extOf
    rw [hd]
    rfl
  by_cases h1 : extOf fn ∈ imageExts
  · by_cases h2 : extOf fn = "pdf"
    · exact absurd (h2 ▸ h1) hpdf
    · refine ⟨?_, ?_, ?_, fun hd => absurd (hext hd ▸ h1) hempty⟩ <;>
        simp [classify, is_image, is_pdf, h1, h2]
  · by_cases h2 : extOf fn = "pdf"
    · refine ⟨?_, ?_, ?_, fun hd => ?_⟩
      · simp [classify, is_image, is_pdf, h1, h2, hpdf]
      · simp [classify, is_image, is_pdf, h1, h2, hpdf]
      · simp [classify, is_image, is_pdf, h1, h2, hpdf]
      · rw [hext hd] at h2; exact absurd h2 (by decide)
    · refine ⟨?_, ?_, ?_, fun hd => ?_⟩ <;>
        simp [classify, is_image, is_pdf, h1, h2]

/-- Witness for `classify_by_extension`: a dotless filename is `Other`. -/
theorem classify_by_extension_witness : classify "archive" = FileClass.Other :=
  (classify_by_extension "archive").2.2.2 (by decide)

/-- Inserting a record whose `order` is `k` into a list leaves it in front
of every kept record with `order = k` (elements skipped over are strictly
smaller, hence filtered out). -/
theorem filter_orderedInsert_of_eq (k : ℤ) (x : Rec) (hx : x.order = k)
    (l : List Rec) :
    (List.orderedInsert recLE x l).filter (fun r => r.order == k) =
      x :: l.filter (fun r => r.order == k) := by
  induction l with
  | nil => simp [List.orderedInsert, hx]
  | cons y ys ih =>
      by_cases h : recLE x y
      · simp [List.orderedInsert, h, hx]
      · have hlt : y.order < x.order := not_le.mp h
        have hy : (y.order == k) = false := beq_eq_false_iff_ne.mpr (by omega)
        simp [List.orderedInsert, h, hy, ih]

/-- Inserting a record whose `order` is not `k` does not change the
`order = k` fibre of the list. -/
theorem filter_orderedInsert_of_ne (k : ℤ) (x : Rec) (hx : x.order ≠ k)
    (l : List Rec) :
    (List.orderedInsert recLE x l).filter (fun r => r.order == k) =
      l.filter (fun r => r.order == k) := by
  have hxb : (x.order == k) = false := beq_eq_false_iff_ne.mpr hx
  induction l with
  | nil => simp [List.orderedInsert, hxb]
  | cons y ys ih =>
      by_cases h : recLE x y
      · simp [List.orderedInsert, h, hxb]
      · simp [List.orderedInsert, h, List.filter_cons, ih]

/-- Stability of the record sort: for every `order` value `k`, the records
with that `order` appear in the sorted list exactly in their original
relative order. -/
theorem filter_sortRecordsByOrder (records : List Rec) (k : ℤ) :
    (sortRecordsByOrder records).filter (fun r => r.order == k) =
      records.filter (fun r => r.order == k) := by
  induction records with
  | nil => rfl
  | cons x xs ih =>
      have hsort : sortRecordsByOrder (x :: xs) =
          List.orderedInsert recLE x (sortRecordsByOrder xs) := rfl
      rw [hsort]
      by_cases hx : x.order = k
      · rw [filter_orderedInsert_of_eq k x hx (sortRecordsByOrder xs), ih]
        have hxb : (x.order == k) = true := by simp [hx]
        simp [List.filter_cons, hxb]
      · rw [filter_orderedInsert_of_ne k x hx (sortRecordsByOrder xs), ih]
        have hxb : (x.order == k) = false := beq_eq_false_iff_ne.mpr hx
        simp [List.filter_cons, hxb]

/-- C6 amended: the deck builder processes the records in ascending
`order` (the list it iterates, `sortRecordsByOrder records`, is sorted), as
a permutation of the batch, with ties kept in original insertion order
(stable); the archive builder, by contrast, writes its entries in the
records' original list order, ignoring `order`. -/
theorem deck_sorted_zip_in_list_order (records : List Rec) (batch_id : String)
    (now : Nat) :
    List.Sorted recLE (sortRecordsByOrder records) ∧
    (sortRecordsByOrder records).Perm records ∧
    (∀ k : ℤ, (sortRecordsByOrder records).filter (fun r => r.order == k) =
      records.filter (fun r => r.order == k)) ∧
    (build_zip_from_records records batch_id now).map ZipEntry.path =
      records.map (fun r => batch_id ++ "/" ++ r.name) :=
  ⟨List.sorted_insertionSort recLE records,
   List.perm_insertionSort recLE records,
   fun k => filter_sortRecordsByOrder records k,
   by simp [build_zip_from_records]⟩

/-- C6 counterexample: on the batch `[recA (order 2), recB (order 1)]` the
archive builder writes `a.txt` before `b.txt` (original list order), while
ascending-`order` processing — the order the deck builder uses — is
`b.txt` before `a.txt`; so the archive does not write its entries in the
sorted order. -/
theorem zip_order_counterexample :
    (build_zip_from_records [recA, recB] "B" 0).map ZipEntry.path ≠
      (sortRecordsByOrder [recA, recB]).map (fun r => "B" ++ "/" ++ r.name) := by
  decide

/-- C7 counterexample: with ten records the title slide's body holds no
file list at all — no `"… and 4 more"` (nor `"... and 4 more files"`) line
and no filename — only the count line `"Files Included: 10 documents"`. -/
theorem titleSlide_ten_records_counterexample :
    "... and 4 more files" ∉ titleSlideLines tenRecs "B" "D" ∧
    "… and 4 more" ∉ titleSlideLines tenRecs "B" "D" ∧
    titleSlideLines tenRecs "B" "D" =
      ["Generated by U2P - Upload to Present", "Batch ID: B • D",
       "Total Files: 10", "Files Included: 10 documents"] := by
  decide

/-- C7 amended: with exactly ten records the title slide shows only the
record count (`"Files Included: 10 documents"`), no filenames; the
truncated file list appears only for batches of at most eight records,
e.g. with exactly eight records it shows the first six file lines followed
by `"... and 2 more files"`. -/
theorem titleSlide_list_truncation (records : List Rec) (batch_id today : String) :
    (records.length = 10 → titleSlideLines records batch_id today =
      ["Generated by U2P - Upload to Present",
       "Batch ID: " ++ batch_id ++ " • " ++ today,
       "Total Files: 10", "Files Included: 10 documents"]) ∧
    (records.length = 8 → titleSlideLines records batch_id today =
      ["Generated by U2P - Upload to Present",
       "Batch ID: " ++ batch_id ++ " • " ++ today,
       "Total Files: 8", "Files Included:"] ++
      (records.take 6).map fileLine ++ ["... and 2 more files"]) := by
  have h10 : toString (10 : Nat) = "10" := rfl
  have h8 : toString (8 : Nat) = "8" := rfl
  have h2 : toString (2 : Nat) = "2" := rfl
  constructor
  · intro h
    simp [titleSlideLines, h, h10]
  · intro h
    simp [titleSlideLines, h, h8, h2]

/-- Witness for `titleSlide_list_truncation` at the concrete ten- and
eight-record batches. -/
theorem titleSlide_list_truncation_witness :
    titleSlideLines tenRecs "B" "D" =
      ["Generated by U2P - Upload to Present",
       "Batch ID: " ++ "B" ++ " • " ++ "D",
       "Total Files: 10", "Files Included: 10 documents"] ∧
    titleSlideLines eightRecs "B" "D" =
      ["Generated by U2P - Upload to Present",
       "Batch ID: " ++ "B" ++ " • " ++ "D",
       "Total Files: 8", "Files Included:"] ++
      (eightRecs.take 6).map fileLine ++ ["... and 2 more files"] :=
  ⟨(titleSlide_list_truncation tenRecs "B" "D").1 (by decide),
   (titleSlide_list_truncation eightRecs "B" "D").2 (by decide)⟩

/-- Python's `int()` agrees with `⌊·⌋` on nonnegative rationals. -/
theorem pyTrunc_eq_floor (q : ℚ) (h : 0 ≤ q) : pyTrunc q = ⌊q⌋ :=
  if_neg (not_lt.mpr h)

/-- All geometric facts about `fit_image_on_slide` on a positive content
rectangle: the returned `(left, top, disp_w, disp_h)` has the truncated
scaled dimensions, fits in the usable region, preserves the aspect ratio up
to the truncation error, and is centered horizontally in the full page
width and vertically in the usable height band, each up to 1 EMU. -/
theorem fit_image_facts (iw ih : ℤ) (ht : Bool) (hiw : 0 < iw) (hih : 0 < ih) :
    (fit_image_on_slide iw ih ht).2.2.1 = pyTrunc ((iw : ℚ) * fitScale iw ih ht) ∧
    (fit_image_on_slide iw ih ht).2.2.2 = pyTrunc ((ih : ℚ) * fitScale iw ih ht) ∧
    (fit_image_on_slide iw ih ht).2.2.1 ≤ usableWidth ∧
    (fit_image_on_slide iw ih ht).2.2.2 ≤ usableHeight ht ∧
    |(fit_image_on_slide iw ih ht).2.2.1 * ih -
      iw * (fit_image_on_slide iw ih ht).2.2.2| < iw + ih ∧
    0 ≤ slideWidthEmu - (fit_image_on_slide iw ih ht).2.2.1 -
      2 * (fit_image_on_slide iw ih ht).1 ∧
    slideWidthEmu - (fit_image_on_slide iw ih ht).2.2.1 -
      2 * (fit_image_on_slide iw ih ht).1 ≤ 1 ∧
    0 ≤ (fit_image_on_slide iw ih ht).2.1 - topOffset ht ∧
    0 ≤ usableHeight ht - (fit_image_on_slide iw ih ht).2.2.2 -
      2 * ((fit_image_on_slide iw ih ht).2.1 - topOffset ht) ∧
    usableHeight ht - (fit_image_on_slide iw ih ht).2.2.2 -
      2 * ((fit_image_on_slide iw ih ht).2.1 - topOffset ht) ≤ 1 := by
  have hiwQ : (0 : ℚ) < (iw : ℚ) := by exact_mod_cast hiw
  have hihQ : (0 : ℚ) < (ih : ℚ) := by exact_mod_cast hih
  have huw : (0 : ℚ) < ((usableWidth : ℤ) : ℚ) := by norm_num [usableWidth]
  have huh : (0 : ℚ) < ((usableHeight ht : ℤ) : ℚ) := by
    cases ht <;> norm_num [usableHeight]
  set s : ℚ := fitScale iw ih ht with hs
  have hs0 : 0 < s := by
    rw [hs]
    unfold fitScale
    exact lt_min (div_pos huw hiwQ) (div_pos huh hihQ)
  have hle1 : s ≤ ((usableWidth : ℤ) : ℚ) / (iw : ℚ) := by
    rw [hs]; unfold fitScale; exact min_le_left _ _
  have hle2 : s ≤ ((usableHeight ht : ℤ) : ℚ) / (ih : ℚ) := by
    rw [hs]; unfold fitScale; exact min_le_right _ _
  have hsw : (iw : ℚ) * s ≤ ((usableWidth : ℤ) : ℚ) := by
    rw [mul_comm]; exact (le_div_iff₀ hiwQ).mp hle1
  have hsh : (ih : ℚ) * s ≤ ((usableHeight ht : ℤ) : ℚ) := by
    rw [mul_comm]; exact (le_div_iff₀ hihQ).mp hle2
  set W : ℤ := pyTrunc ((iw : ℚ) * s) with hWdef
  set H : ℤ := pyTrunc ((ih : ℚ) * s) with hHdef
  have hWf : W = ⌊(iw : ℚ) * s⌋ := pyTrunc_eq_floor _ (mul_nonneg hiwQ.le hs0.le)
  have hHf : H = ⌊(ih : ℚ) * s⌋ := pyTrunc_eq_floor _ (mul_nonneg hihQ.le hs0.le)
  have hWle : (W : ℚ) ≤ (iw : ℚ) * s := by rw [hWf]; exact_mod_cast Int.floor_le _
  have hWgt : (iw : ℚ) * s - 1 < (W : ℚ) := by
    rw [hWf]; exact_mod_cast Int.sub_one_lt_floor _
  have hHle : (H : ℚ) ≤ (ih : ℚ) * s := by rw [hHf]; exact_mod_cast Int.floor_le _
  have hHgt : (ih : ℚ) * s - 1 < (H : ℚ) := by
    rw [hHf]; exact_mod_cast Int.sub_one_lt_floor _
  have hWuw : W ≤ usableWidth := by exact_mod_cast le_trans hWle hsw
  have hHuh : H ≤ usableHeight ht := by exact_mod_cast le_trans hHle hsh
  have e1 : (fit_image_on_slide iw ih ht).2.2.1 = W := rfl
  have e2 : (fit_image_on_slide iw ih ht).2.2.2 = H := rfl
  have e3 : (fit_image_on_slide iw ih ht).1 =
      pyTrunc (((slideWidthEmu : ℚ) - (W : ℚ)) / 2) := rfl
  have e4 : (fit_image_on_slide iw ih ht).2.1 =
      pyTrunc ((topOffset ht : ℚ) + ((usableHeight ht : ℚ) - (H : ℚ)) / 2) := rfl
  have hA : W * ih - iw * H < iw := by
    have h1 : (W : ℚ) * (ih : ℚ) ≤ ((iw : ℚ) * s) * (ih : ℚ) :=
      mul_le_mul_of_nonneg_right hWle hihQ.le
    have h2 : (iw : ℚ) * ((ih : ℚ) * s - 1) < (iw : ℚ) * (H : ℚ) :=
      mul_lt_mul_of_pos_left hHgt hiwQ
    have : (W : ℚ) * (ih : ℚ) - (iw : ℚ) * (H : ℚ) < (iw : ℚ) := by nlinarith [h1, h2]
    exact_mod_cast this
  have hB : iw * H - W * ih < ih := by
    have h1 : (iw : ℚ) * (H : ℚ) ≤ (iw : ℚ) * ((ih : ℚ) * s) :=
      mul_le_mul_of_nonneg_left hHle hiwQ.le
    have h2 : ((iw : ℚ) * s - 1) * (ih : ℚ) < (W : ℚ) * (ih : ℚ) :=
      mul_lt_mul_of_pos_right hWgt hihQ
    have : (iw : ℚ) * (H : ℚ) - (W : ℚ) * (ih : ℚ) < (ih : ℚ) := by nlinarith [h1, h2]
    exact_mod_cast this
  have habs : |W * ih - iw * H| < iw + ih := abs_lt.mpr ⟨by omega, by omega⟩
  have hUWval : usableWidth = 6858000 := rfl
  have hSWval : slideWidthEmu = 7772400 := rfl
  have hWleSW : (W : ℚ) ≤ ((slideWidthEmu : ℤ) : ℚ) := by
    have : W ≤ slideWidthEmu := by omega
    exact_mod_cast this
  have hLarg : (0 : ℚ) ≤ (((slideWidthEmu : ℤ) : ℚ) - (W : ℚ)) / 2 := by linarith
  have hLf : pyTrunc ((((slideWidthEmu : ℤ) : ℚ) - (W : ℚ)) / 2) =
      ⌊(((slideWidthEmu : ℤ) : ℚ) - (W : ℚ)) / 2⌋ := pyTrunc_eq_floor _ hLarg
  set L : ℤ := pyTrunc ((((slideWidthEmu : ℤ) : ℚ) - (W : ℚ)) / 2) with hLdef
  have hLle : (L : ℚ) ≤ (((slideWidthEmu : ℤ) : ℚ) - (W : ℚ)) / 2 := by
    rw [hLf]; exact_mod_cast Int.floor_le _
  have hLgt : (((slideWidthEmu : ℤ) : ℚ) - (W : ℚ)) / 2 - 1 < (L : ℚ) := by
    rw [hLf]; exact_mod_cast Int.sub_one_lt_floor _
  have hc1 : 2 * L ≤ slideWidthEmu - W := by
    have : 2 * (L : ℚ) ≤ ((slideWidthEmu : ℤ) : ℚ) - (W : ℚ) := by linarith
    exact_mod_cast this
  have hc2 : slideWidthEmu - W < 2 * L + 2 := by
    have : ((slideWidthEmu : ℤ) : ℚ) - (W : ℚ) < 2 * (L : ℚ) + 2 := by linarith
    exact_mod_cast this
  have htoff : (0 : ℤ) ≤ topOffset ht := by cases ht <;> norm_num [topOffset]
  have htoffQ : (0 : ℚ) ≤ ((topOffset ht : ℤ) : ℚ) := by exact_mod_cast htoff
  have hHQ : (H : ℚ) ≤ ((usableHeight ht : ℤ) : ℚ) := by exact_mod_cast hHuh
  have hTarg : (0 : ℚ) ≤ ((topOffset ht : ℤ) : ℚ) +
      (((usableHeight ht : ℤ) : ℚ) - (H : ℚ)) / 2 := by linarith
  set T : ℤ := pyTrunc (((topOffset ht : ℤ) : ℚ) +
      (((usableHeight ht : ℤ) : ℚ) - (H : ℚ)) / 2) with hTdef
  have hTf : T = topOffset ht + ⌊(((usableHeight ht : ℤ) : ℚ) - (H : ℚ)) / 2⌋ := by
    rw [hTdef, pyTrunc_eq_floor _ hTarg, Int.floor_int_add]
  have hA0 : 0 ≤ ⌊(((usableHeight ht : ℤ) : ℚ) - (H : ℚ)) / 2⌋ :=
    Int.floor_nonneg.mpr (by linarith)
  set A : ℤ := ⌊(((usableHeight ht : ℤ) : ℚ) - (H : ℚ)) / 2⌋ with hAdef
  have hAle : (A : ℚ) ≤ (((usableHeight ht : ℤ) : ℚ) - (H : ℚ)) / 2 := by
    rw [hAdef]; exact_mod_cast Int.floor_le _
  have hAgt : (((usableHeight ht : ℤ) : ℚ) - (H : ℚ)) / 2 - 1 < (A : ℚ) := by
    rw [hAdef]; exact_mod_cast Int.sub_one_lt_floor _
  have hv1 : 2 * A ≤ usableHeight ht - H := by
    have : 2 * (A : ℚ) ≤ ((usableHeight ht : ℤ) : ℚ) - (H : ℚ) := by linarith
    exact_mod_cast this
  have hv2 : usableHeight ht - H < 2 * A + 2 := by
    have : ((usableHeight ht : ℤ) : ℚ) - (H : ℚ) < 2 * (A : ℚ) + 2 := by linarith
    exact_mod_cast this
  refine ⟨e1, e2, ?_, ?_, ?_, ?_, ?_, ?_, ?_, ?_⟩
  · rw [e1]; exact hWuw
  · rw [e2]; exact hHuh
  · rw [e1, e2]; exact habs
  · rw [e1, e3]; omega
  · rw [e1, e3]; omega
  · rw [e4, hTf]; omega
  · rw [e2, e4, hTf]; omega
  · rw [e2, e4, hTf]; omega

/-- C3: for a positive content rectangle and either `hasTitle` value, the
fitted rectangle's width/height are at most the usable width/height, its
width/height ratio equals the content's aspect ratio up to truncation error
(`|w*ih - iw*h| < iw + ih`), and its left offset centers it horizontally
within the full page width (left and right gaps differ by at most 1 EMU). -/
theorem fit_image_within_usable_region (iw ih : ℤ) (ht : Bool)
    (hiw : 0 < iw) (hih : 0 < ih) :
    (fit_image_on_slide iw ih ht).2.2.1 ≤ usableWidth ∧
    (fit_image_on_slide iw ih ht).2.2.2 ≤ usableHeight ht ∧
    |(fit_image_on_slide iw ih ht).2.2.1 * ih -
      iw * (fit_image_on_slide iw ih ht).2.2.2| < iw + ih ∧
    0 ≤ slideWidthEmu - (fit_image_on_slide iw ih ht).2.2.1 -
      2 * (fit_image_on_slide iw ih ht).1 ∧
    slideWidthEmu - (fit_image_on_slide iw ih ht).2.2.1 -
      2 * (fit_image_on_slide iw ih ht).1 ≤ 1 := by
  obtain ⟨-, -, h3, h4, h5, h6, h7, -, -, -⟩ := fit_image_facts iw ih ht hiw hih
  exact ⟨h3, h4, h5, h6, h7⟩

/-- Witness for `fit_image_within_usable_region` at a 400 × 300 content
rectangle without a title. -/
theorem fit_image_within_usable_region_witness :
    (0 : ℤ) < 400 ∧ (0 : ℤ) < 300 ∧
    ((fit_image_on_slide 400 300 false).2.2.1 ≤ usableWidth ∧
     (fit_image_on_slide 400 300 false).2.2.2 ≤ usableHeight false ∧
     |(fit_image_on_slide 400 300 false).2.2.1 * 300 -
       400 * (fit_image_on_slide 400 300 false).2.2.2| < 400 + 300 ∧
     0 ≤ slideWidthEmu - (fit_image_on_slide 400 300 false).2.2.1 -
       2 * (fit_image_on_slide 400 300 false).1 ∧
     slideWidthEmu - (fit_image_on_slide 400 300 false).2.2.1 -
       2 * (fit_image_on_slide 400 300 false).1 ≤ 1) :=
  ⟨by norm_num, by norm_num,
   fit_image_within_usable_region 400 300 false (by norm_num) (by norm_num)⟩

/-- C4 amended: the output dimensions are `int(contentWidth*scale)` and
`int(contentHeight*scale)` — Python truncation, not `round` — with
`scale = min(usableWidth/contentWidth, usableHeight/contentHeight)`, and
the top offset centers the scaled content vertically within the usable
height band (gaps above and below differ by at most 1 EMU). -/
theorem fit_image_dims_truncation (iw ih : ℤ) (ht : Bool)
    (hiw : 0 < iw) (hih : 0 < ih) :
    (fit_image_on_slide iw ih ht).2.2.1 = pyTrunc ((iw : ℚ) * fitScale iw ih ht) ∧
    (fit_image_on_slide iw ih ht).2.2.2 = pyTrunc ((ih : ℚ) * fitScale iw ih ht) ∧
    0 ≤ (fit_image_on_slide iw ih ht).2.1 - topOffset ht ∧
    0 ≤ usableHeight ht - (fit_image_on_slide iw ih ht).2.2.2 -
      2 * ((fit_image_on_slide iw ih ht).2.1 - topOffset ht) ∧
    usableHeight ht - (fit_image_on_slide iw ih ht).2.2.2 -
      2 * ((fit_image_on_slide iw ih ht).2.1 - topOffset ht) ≤ 1 := by
  obtain ⟨h1, h2, -, -, -, -, -, h8, h9, h10⟩ := fit_image_facts iw ih ht hiw hih
  exact ⟨h1, h2, h8, h9, h10⟩

/-- Witness for `fit_image_dims_truncation` at a 640 × 480 content
rectangle with a title. -/
theorem fit_image_dims_truncation_witness :
    (0 : ℤ) < 640 ∧ (0 : ℤ) < 480 ∧
    ((fit_image_on_slide 640 480 true).2.2.1 =
       pyTrunc ((640 : ℚ) * fitScale 640 480 true) ∧
     (fit_image_on_slide 640 480 true).2.2.2 =
       pyTrunc ((480 : ℚ) * fitScale 640 480 true) ∧
     0 ≤ (fit_image_on_slide 640 480 true).2.1 - topOffset true ∧
     0 ≤ usableHeight true - (fit_image_on_slide 640 480 true).2.2.2 -
       2 * ((fit_image_on_slide 640 480 true).2.1 - topOffset true) ∧
     usableHeight true - (fit_image_on_slide 640 480 true).2.2.2 -
       2 * ((fit_image_on_slide 640 480 true).2.1 - topOffset true) ≤ 1) :=
  ⟨by norm_num, by norm_num,
   fit_image_dims_truncation 640 480 true (by norm_num) (by norm_num)⟩

/-- At a 7 × 2 content rectangle without a title, the binding constraint is
the width, so `scale = 6858000 / 7`. -/
theorem fitScale_7_2 : fitScale 7 2 false = 6858000 / 7 := by
  unfold fitScale usableWidth usableHeight
  rw [min_eq_left (by norm_num)]
  norm_num

/-- The code's height at 7 × 2: `int(2 * 6858000/7) = int(1959428.57...)`
= 1959428. -/
theorem fit_disp_h_7_2 : (fit_image_on_slide 7 2 false).2.2.2 = 1959428 := by
  show pyTrunc ((2 : ℚ) * fitScale 7 2 false) = 1959428
  rw [fitScale_7_2, pyTrunc_eq_floor _ (by norm_num)]
  rw [show ((2 : ℚ) * (6858000 / 7)) = 13716000 / 7 by norm_num]
  rw [Int.floor_eq_iff]
  norm_num

/-- The spec's height at 7 × 2: `round(1959428.57...) = 1959429`. -/
theorem fit_round_h_7_2 : (fit_spec_round 7 2 false).2 = 1959429 := by
  show round ((2 : ℚ) * fitScale 7 2 false) = 1959429
  rw [fitScale_7_2, round_eq]
  rw [show ((2 : ℚ) * (6858000 / 7) + 1 / 2) = 27432007 / 14 by norm_num]
  rw [Int.floor_eq_iff]
  norm_num

/-- C4 counterexample: at the 7 × 2 content rectangle without a title, the
dimensions computed by `fit_image_on_slide` (truncating, height 1959428)
differ from `round(contentWidth*scale)`, `round(contentHeight*scale)` as
the claim states them (height 1959429). -/
theorem fit_image_round_counterexample :
    ((fit_image_on_slide 7 2 false).2.2.1, (fit_image_on_slide 7 2 false).2.2.2) ≠
      fit_spec_round 7 2 false := by
  intro h
  have h2 := congrArg Prod.snd h
  simp only [fit_disp_h_7_2, fit_round_h_7_2] at h2
  exact absurd h2 (by norm_num)

/-- C1 (evaluation at the failing input): on a batch holding one
image-classified record whose bytes fail to decode, with no presentation
title, the built deck has TWO slides — a leftover blank image slide
(created at `app.py` line 252 before decoding is attempted and never
removed) and the "Attached Files" fallback slide listing the record —
whereas the claimed slide-count invariant predicts exactly one slide (the
fallback slide alone), the failed record contributing no slide of its own. -/
theorem failed_image_leaves_blank_slide :
    build_pptx_from_records noImageDecode noPdfDecode true [badPngRecord] false
        "" "" "" =
      [Slide.imageSlide none none none, Slide.attachedSlide ["x.png"] none] ∧
    (build_pptx_from_records noImageDecode noPdfDecode true [badPngRecord] false
        "" "" "").length = 2 := by
  decide

/-- With rasterization unavailable, every non-image record of the
processed list ends up in the fallback `others` list. -/
theorem processRecords_no_support_others (decodeImage : List Nat → Option (ℤ × ℤ))
    (decodePdf : List Nat → Option (List (ℤ × ℤ))) (show_titles : Bool)
    (batch_id : String) (l : List Rec) (r : Rec) (hr : r ∈ l)
    (himg : is_image r.name = false) :
    r ∈ (processRecords decodeImage decodePdf false show_titles batch_id l).2 := by
  induction l with
  | nil => cases hr
  | cons x xs ih =>
      rcases List.mem_cons.mp hr with h | h
      · subst h
        simp [processRecords, processRecord, himg]
      · exact List.mem_append_right _ (ih h)

/-- With rasterization unavailable, no slide of the processed list is a
rasterized page slide. -/
theorem processRecords_no_support_slides (decodeImage : List Nat → Option (ℤ × ℤ))
    (decodePdf : List Nat → Option (List (ℤ × ℤ))) (show_titles : Bool)
    (batch_id : String) (l : List Rec) (s : Slide)
    (hs : s ∈ (processRecords decodeImage decodePdf false show_titles batch_id l).1) :
    s.isPdfPage = false := by
  induction l with
  | nil => cases hs
  | cons x xs ih =>
      have hsplit : s ∈ (processRecord decodeImage decodePdf false show_titles
          batch_id x).1 ++
          (processRecords decodeImage decodePdf false show_titles batch_id xs).1 := hs
      rcases List.mem_append.mp hsplit with h | h
      · by_cases himg : is_image x.name
        · rcases hdec : decodeImage x.bytes with _ | ⟨iw, ih2⟩
          · simp [processRecord, himg, hdec] at h
            rw [h]
            rfl
          · simp [processRecord, himg, hdec] at h
            rw [h]
            rfl
        · simp [processRecord, himg] at h
      · exact ih h

/-- C9: when document-rasterization capability is unavailable
(`PDF_SUPPORT = false`, so the `elif is_pdf(fname) and PDF_SUPPORT` branch
is never taken), every PDF-classified record of the batch is routed to the
fallback "Attached Files" summary slide of the built deck, and the deck
contains no rasterized page slide; the build is a total function of its
inputs, so it completes without raising an error. -/
theorem pdf_support_unavailable_fallback (decodeImage : List Nat → Option (ℤ × ℤ))
    (decodePdf : List Nat → Option (List (ℤ × ℤ))) (records : List Rec)
    (show_titles : Bool) (batch_id presentation_title today : String) :
    (∀ r ∈ records, is_pdf r.name = true → is_image r.name = false →
      ∃ names footer, Slide.attachedSlide names footer ∈
        build_pptx_from_records decodeImage decodePdf false records show_titles
          batch_id presentation_title today ∧ r.name ∈ names) ∧
    (∀ s ∈ build_pptx_from_records decodeImage decodePdf false records show_titles
        batch_id presentation_title today, s.isPdfPage = false) := by
  constructor
  · intro r hr hpdf himg
    have hr' : r ∈ sortRecordsByOrder records :=
      (List.perm_insertionSort recLE records).mem_iff.mpr hr
    have hro : r ∈ (processRecords decodeImage decodePdf false show_titles batch_id
        (sortRecordsByOrder records)).2 :=
      processRecords_no_support_others decodeImage decodePdf show_titles batch_id
        (sortRecordsByOrder records) r hr' himg
    refine ⟨(processRecords decodeImage decodePdf false show_titles batch_id
        (sortRecordsByOrder records)).2.map Rec.name, footerOf batch_id, ?_,
      List.mem_map_of_mem _ hro⟩
    show Slide.attachedSlide _ _ ∈ _ ++ _ ++
      (if (processRecords decodeImage decodePdf false show_titles batch_id
          (sortRecordsByOrder records)).2 = [] then []
       else [Slide.attachedSlide _ (footerOf batch_id)])
    rw [if_neg (List.ne_nil_of_mem hro)]
    exact List.mem_append_right _ (List.mem_singleton.mpr rfl)
  · intro s hs
    rcases List.mem_append.mp hs with h | h
    · rcases List.mem_append.mp h with h1 | h1
      · by_cases hpt : presentation_title = ""
        · simp [hpt] at h1
        · simp [hpt] at h1
          rw [h1]
          rfl
      · exact processRecords_no_support_slides decodeImage decodePdf show_titles
          batch_id (sortRecordsByOrder records) s h1
    · by_cases hpe : (processRecords decodeImage decodePdf false show_titles batch_id
          (sortRecordsByOrder records)).2 = []
      · simp [hpe] at h
      · simp [hpe] at h
        rw [h]
        rfl

/-- Witness for `pdf_support_unavailable_fallback`: a single PDF record,
rasterization unavailable — it is listed on a fallback slide of the deck. -/
theorem pdf_support_unavailable_fallback_witness :
    ∃ names footer, Slide.attachedSlide names footer ∈
      build_pptx_from_records noImageDecode noPdfDecode false [pdfRecord] false
        "" "" "" ∧ pdfRecord.name ∈ names :=
  (pdf_support_unavailable_fallback noImageDecode noPdfDecode [pdfRecord] false
      "" "" "").1 pdfRecord (List.mem_singleton.mpr rfl) (by decide) (by decide)
